import Mathlib

/-!
Shallow embedding of the past-orders ("order history") core of the pizza
ordering front-end: the `PastOrdersRoute` component and its wrapper in
`src/routes/past.lazy.jsx`, the `ErrorBoundary` class in
`src/ErrorBoundary.jsx`, the portal `Modal` in `src/Modal.jsx`, and the
`fixImagePath` utility in `src/utils/imageUtils.js`.

JavaScript values that the code tests for truthiness (`focusedOrder`,
`order.order_id`, `imagePath`) are embedded with an explicit `OrderId`
type (number or string) plus an `Option` for `undefined`, and a `truthy`
function mirroring JavaScript coercion for those values.  A render pass
that throws a `TypeError` (indexing a field of `undefined`) is embedded
as `Except RenderError`.
-/

/-- JavaScript identifier value used for `order_id`: a number or a string.
`OrderId.num 0` and `OrderId.str ""` are falsy in JavaScript. -/
inductive OrderId
  | num (n : Int)
  | str (s : String)
deriving DecidableEq, Repr

/-- JavaScript truthiness of an `order_id` value: `0` and `""` are falsy. -/
def truthy : OrderId → Bool
  | .num n => decide (n ≠ 0)
  | .str s => decide (s ≠ "")

/-- Truthiness of `focusedOrder : identifier | undefined` (the `useState()`
cell); `undefined` (`none`) is falsy.  This is the `!!focusedOrder` /
`focusedOrder ? _ : null` test in `past.lazy.jsx`. -/
def truthyFocus : Option OrderId → Bool
  | none => false
  | some id => truthy id

/-- One order summary row returned by `GET /api/past-orders?page=n`
(`order_id`, `date`, `time`), as consumed by the summaries table. -/
structure OrderSummary where
  order_id : OrderId
  date : String
  time : String
deriving DecidableEq, Repr

/-- One line item of an order detail, as consumed by the modal's items
table in `past.lazy.jsx` (fields `pizzaTypeId`, `size`, `name`, `image`,
`quantity`, `price`, `total`).  The decimal `price`/`total` values are
carried opaquely (their numeric precision is immaterial here); `image`
is `none` when the field is absent/undefined. -/
structure LineItem where
  pizzaTypeId : Int
  size : String
  name : String
  image : Option String
  quantity : Int
  price : Int
  total : Int
deriving DecidableEq, Repr

/-- The detail response object as seen at render time: `orderItems` may be
absent (`none`) when the API returned a body without that field. -/
structure OrderDetailJS where
  orderItems : Option (List LineItem)
deriving DecidableEq, Repr

/-- Embedding of `fixImagePath` from `src/utils/imageUtils.js`:
`if (!imagePath) return ""` (undefined or empty string are falsy), then
`imagePath.replace(/^\/public/, "")` strips one leading `/public`. -/
def fixImagePath : Option String → String
  | none => ""
  | some s =>
    if s = "" then ""
    else if s.startsWith "/public" then s.drop 7
    else s

/-- A rendered row of the modal's items table (`<tr key=...>` with image,
name, size, quantity, price, total cells). -/
structure ItemRow where
  rowKey : String
  imageSrc : String
  imageAlt : String
  name : String
  size : String
  quantity : Int
  price : Int
  total : Int
deriving DecidableEq, Repr

/-- Rendering of one line item row in the modal, from `past.lazy.jsx`
lines 171-181: key `pizzaTypeId_size`, image source through
`fixImagePath`, alt text the pizza name. -/
def renderItemRow (pizza : LineItem) : ItemRow :=
  { rowKey := toString pizza.pizzaTypeId ++ "_" ++ pizza.size
    imageSrc := fixImagePath pizza.image
    imageAlt := pizza.name
    name := pizza.name
    size := pizza.size
    quantity := pizza.quantity
    price := pizza.price
    total := pizza.total }

/-- A render-pass failure: the embedding of a thrown `TypeError`
(reading a property of `undefined`, or calling `.map` on `undefined`). -/
inductive RenderError
  | typeError
deriving DecidableEq, Repr

/-- Content slot of the detail modal: the loading paragraph while
`isLoadingPastOrder`, or the items table once loaded. -/
inductive ModalContent
  | loading
  | items (rows : List ItemRow)
deriving DecidableEq, Repr

/-- The rendered detail modal: heading `Order #focusedOrder` plus the
content slot (the Close button is implicit). -/
structure ModalView where
  focused : OrderId
  content : ModalContent
deriving DecidableEq, Repr

/-- Embedding of the modal slot of `PastOrdersRoute`
(`past.lazy.jsx` lines 153-192):
`focusedOrder ? <Modal>{ !isLoadingPastOrder ? table : loading }</Modal> : null`.
The items table evaluates `pastOrderData.orderItems.map(...)` with no
presence check, so an absent response (`pastOrderData` undefined) or a
response without `orderItems` throws a `TypeError` during render. -/
def renderModalSlot (focusedOrder : Option OrderId) (isLoadingPastOrder : Bool)
    (pastOrderData : Option OrderDetailJS) :
    Except RenderError (Option ModalView) :=
  match focusedOrder with
  | none => .ok none
  | some id =>
    if truthy id then
      if !isLoadingPastOrder then
        match pastOrderData with
        | none => .error .typeError
        | some d =>
          match d.orderItems with
          | none => .error .typeError
          | some items => .ok (some ⟨id, .items (items.map renderItemRow)⟩)
      else .ok (some ⟨id, .loading⟩)
    else .ok none

/-- The fully rendered past-orders page: summaries table rows, the page
label, the two pagination buttons' disabled flags, and the modal slot. -/
structure PageView where
  rows : List OrderSummary
  pageLabel : Int
  prevDisabledFlag : Bool
  nextDisabledFlag : Bool
  modal : Option ModalView
deriving DecidableEq, Repr

/-- The view returned by `PastOrdersRoute`: the early `LOADING …` screen
while the summaries query is loading, or the full page. -/
inductive PastOrdersView
  | loading
  | page (p : PageView)
deriving DecidableEq, Repr

/-- Embedding of the render body of `PastOrdersRoute`
(`past.lazy.jsx` lines 104-194).  Inputs are the two query hooks'
render-time results: `isLoading`/`data` for the summaries query
(`data = none` embeds `undefined`, the settled-error case, where
`data.map(...)` throws), and `isLoadingPastOrder`/`pastOrderData` for the
dependent detail query.  Pagination: `disabled={page <= 1}` and
`disabled={data.length < 10}`. -/
def renderPastOrdersRoute (page : Int) (isLoading : Bool)
    (data : Option (List OrderSummary)) (focusedOrder : Option OrderId)
    (isLoadingPastOrder : Bool) (pastOrderData : Option OrderDetailJS) :
    Except RenderError PastOrdersView :=
  if isLoading then .ok .loading
  else
    match data with
    | none => .error .typeError
    | some ds => do
      let modal ← renderModalSlot focusedOrder isLoadingPastOrder pastOrderData
      .ok (.page
        { rows := ds
          pageLabel := page
          prevDisabledFlag := decide (page ≤ 1)
          nextDisabledFlag := decide (ds.length < 10)
          modal := modal })

/-- State of the `ErrorBoundary` class component: `state = { hasError: false }`. -/
structure EBState where
  hasError : Bool
deriving DecidableEq, Repr

/-- Initial boundary state (`ErrorBoundary.jsx` lines 15-17). -/
def ebInit : EBState := ⟨false⟩

/-- `static getDerivedStateFromError()` returns `{ hasError: true }`
unconditionally (`ErrorBoundary.jsx` lines 28-30). -/
def getDerivedStateFromError : EBState := ⟨true⟩

/-- What the boundary shows: its fallback error page, or the wrapped
children's output. -/
inductive BoundaryView
  | fallback
  | ok (v : PastOrdersView)
deriving DecidableEq, Repr

/-- One render pass through the `ErrorBoundary` (`ErrorBoundary.jsx`
`render`, lines 53-69, plus the framework's catch behaviour): in the
errored state the fallback is rendered without consulting the children;
otherwise a child render failure is caught, `getDerivedStateFromError`
produces the new state, and the fallback is rendered; a successful child
render is passed through with the state unchanged. -/
def boundaryRender (st : EBState) (child : Except RenderError PastOrdersView) :
    EBState × BoundaryView :=
  if st.hasError then (st, .fallback)
  else
    match child with
    | .ok v => (st, .ok v)
    | .error _ => (getDerivedStateFromError, .fallback)

/-- A sequence of render passes through one mounted `ErrorBoundary`,
threading its state; returns the final state and every pass's output. -/
def boundaryRun (st : EBState) :
    List (Except RenderError PastOrdersView) → EBState × List BoundaryView
  | [] => (st, [])
  | c :: cs =>
    let r := boundaryRender st c
    let rest := boundaryRun r.1 cs
    (rest.1, r.2 :: rest.2)

/-- The root layout around the routed page (`__root` route): `Header` and
`PizzaOfTheDay` are rendered outside the `ErrorBoundary` that wraps only
`PastOrdersRoute` (`ErrorBoundryWrappedPastOrdersRoutes`,
`past.lazy.jsx` lines 34-40). -/
structure RootView where
  headerRendered : Bool
  body : BoundaryView
  pizzaOfTheDayRendered : Bool
deriving DecidableEq, Repr

/-- One render of the root layout with the past-orders page as the outlet
content: the page render result goes through the boundary; header and
pizza-of-the-day are unconditionally part of the root output. -/
def renderRoot (st : EBState) (child : Except RenderError PastOrdersView) :
    EBState × RootView :=
  let r := boundaryRender st child
  (r.1, ⟨true, r.2, true⟩)

/-- Component state of `PastOrdersRoute`: `page` (`useState(1)`),
`focusedOrder` (`useState()`, i.e. `undefined`), plus the summaries list
currently backing the rendered table (the `data` of the summaries query,
replaced wholesale when a page's fetch resolves). -/
structure UIState where
  page : Int
  focusedOrder : Option OrderId
  summaries : List OrderSummary
deriving DecidableEq, Repr

/-- User / query events on the past-orders view: clicks on the two
pagination buttons, a click on an order-id button, the modal's Close
button, and resolution of a summaries fetch for the current page. -/
inductive UIEvent
  | clickPrevious
  | clickNext
  | clickOrder (id : OrderId)
  | clickClose
  | summariesLoaded (ds : List OrderSummary)
deriving DecidableEq, Repr

/-- Disabled flag on the Previous button: `disabled={page <= 1}`. -/
def prevDisabled (s : UIState) : Bool := decide (s.page ≤ 1)

/-- Disabled flag on the Next button: `disabled={data.length < 10}`. -/
def nextDisabled (s : UIState) : Bool := decide (s.summaries.length < 10)

/-- Whether the detail overlay is visible: the `focusedOrder ? ... : null`
conditional around `<Modal>`. -/
def overlayVisible (s : UIState) : Bool := truthyFocus s.focusedOrder

/-- Step function of the view: a disabled button cannot fire its
`onClick`, so Previous/Next are no-ops exactly when their disabled flag
holds; otherwise `setPage(page - 1)` / `setPage(page + 1)`.  An order
button fires `setFocusedOrder(order.order_id)`, Close fires
`setFocusedOrder()` (back to `undefined`).  Loaded summaries replace the
table's data. -/
def uiStep (s : UIState) : UIEvent → UIState
  | .clickPrevious => if prevDisabled s then s else { s with page := s.page - 1 }
  | .clickNext => if nextDisabled s then s else { s with page := s.page + 1 }
  | .clickOrder id => { s with focusedOrder := some id }
  | .clickClose => { s with focusedOrder := none }
  | .summariesLoaded ds => { s with summaries := ds }

/-- Initial view state: `page = 1`, `focusedOrder = undefined`, with the
first loaded page of summaries `ds`. -/
def uiInit (ds : List OrderSummary) : UIState := ⟨1, none, ds⟩

/-- States of the past-orders view reachable from the initial state by
any sequence of events. -/
inductive UIReachable : UIState → Prop
  | init (ds : List OrderSummary) : UIReachable (uiInit ds)
  | step {s : UIState} (e : UIEvent) : UIReachable s → UIReachable (uiStep s e)

/-- The detail query's `staleTime`: 24 hours in milliseconds. -/
def detailStaleTime : Nat := 24 * 60 * 60 * 1000

/-- The summaries query's `staleTime`: 30 seconds in milliseconds. -/
def summariesStaleTime : Nat := 30000

/-- One cached detail entry of the request cache, keyed by `order_id`:
when it was fetched, and the response data. -/
structure CacheEntry where
  fetchedAt : Nat
  data : OrderDetailJS
deriving DecidableEq, Repr

/-- State of the dependent detail query machinery: the focused order,
the request cache for the `["past-order", id]` keys (newest entry
first), the set of in-flight detail requests, and a log of issued
network calls `(id, time)`. -/
structure DQState where
  focus : Option OrderId
  cache : List (OrderId × CacheEntry)
  inFlight : List OrderId
  calls : List (OrderId × Nat)
deriving DecidableEq, Repr

/-- Initial detail-query state: nothing focused, empty cache, nothing in
flight, no calls issued. -/
def dqInit : DQState := ⟨none, [], [], []⟩

/-- Lookup of the newest cache entry under a key. -/
def cacheLookup : List (OrderId × CacheEntry) → OrderId → Option CacheEntry
  | [], _ => none
  | (k, v) :: rest, id => if k = id then some v else cacheLookup rest id

/-- Whether the cached detail for `id` is still fresh at time `now`
under the 24-hour `staleTime`. -/
def isFresh (cache : List (OrderId × CacheEntry)) (id : OrderId) (now : Nat) : Bool :=
  match cacheLookup cache id with
  | none => false
  | some e => decide (now - e.fetchedAt < detailStaleTime)

/-- The detail query's `enabled: !!focusedOrder` flag: the query function
may only run when this is true. -/
def detailQueryEnabled (focusedOrder : Option OrderId) : Bool :=
  truthyFocus focusedOrder

/-- Whether rendering the detail query hook at time `now` issues a
network call: the query must be enabled (`!!focusedOrder`), the cache
entry for the focused key must be missing or stale, and no request for
that key may already be in flight (request de-duplication by key). -/
def detailFetchOnRender (s : DQState) (now : Nat) : Bool :=
  match s.focus with
  | none => false
  | some id =>
    detailQueryEnabled s.focus && !isFresh s.cache id now &&
      !(decide (id ∈ s.inFlight))

/-- Removal of the in-flight marker for a settled request's key. -/
def removeInFlight : List OrderId → OrderId → List OrderId
  | [], _ => []
  | k :: rest, id => if k = id then rest else k :: removeInFlight rest id

/-- `selectOrder(id)` at time `now`: sets `FocusedOrder` to `id`
(`setFocusedOrder(order.order_id)`), after which the detail query hook
re-renders and issues a fetch for the new key exactly when
`detailFetchOnRender` says so. -/
def selectOrder (s : DQState) (id : OrderId) (now : Nat) : DQState :=
  if detailFetchOnRender ⟨some id, s.cache, s.inFlight, s.calls⟩ now then
    ⟨some id, s.cache, id :: s.inFlight, (id, now) :: s.calls⟩
  else ⟨some id, s.cache, s.inFlight, s.calls⟩

/-- `clearFocus()`: `setFocusedOrder()` sets `FocusedOrder` back to
`undefined`; it does not cancel an in-flight detail fetch. -/
def clearFocus (s : DQState) : DQState := ⟨none, s.cache, s.inFlight, s.calls⟩

/-- Resolution of the detail fetch that was issued for key `id`: the
response is written into the cache under its originating key (never
under the currently focused key) and the in-flight marker is removed. -/
def resolveDetail (s : DQState) (id : OrderId) (d : OrderDetailJS) (now : Nat) :
    DQState :=
  ⟨s.focus, (id, ⟨now, d⟩) :: s.cache, removeInFlight s.inFlight id, s.calls⟩

/-- The detail data the overlay would render in state `s`: the overlay is
shown only for a truthy `focusedOrder`, and the hook hands it the cached
data under the current key `["past-order", focusedOrder]`. -/
def renderedDetail (s : DQState) : Option OrderDetailJS :=
  match s.focus with
  | none => none
  | some id =>
    if truthy id then (cacheLookup s.cache id).map (fun e => e.data) else none

/-- State of the fixed display surface (`<div id="modal">`) with respect
to the Modal's host element `elRef.current`: whether it is currently
attached, and running counts of `appendChild` / `removeChild`
operations. -/
structure SurfaceState where
  attached : Bool
  attachCount : Nat
  detachCount : Nat
deriving DecidableEq, Repr

/-- Initial surface state: the host element exists but is not attached. -/
def surfaceInit : SurfaceState := ⟨false, 0, 0⟩

/-- Mount of the `Modal` component: its effect runs once and performs
`modalRoot.appendChild(elRef.current)` (`Modal.jsx` lines 32-38). -/
def modalMount (s : SurfaceState) : SurfaceState :=
  { attached := true, attachCount := s.attachCount + 1, detachCount := s.detachCount }

/-- Unmount of the `Modal` component: the effect's cleanup performs
`modalRoot.removeChild(elRef.current)` (`Modal.jsx` line 43). -/
def modalUnmount (s : SurfaceState) : SurfaceState :=
  { s with attached := false, detachCount := s.detachCount + 1 }

/-- `n` complete display/dismiss cycles of the overlay: each cycle mounts
the Modal (attach) and then unmounts it (detach). -/
def modalCycles : Nat → SurfaceState → SurfaceState
  | 0, s => s
  | n + 1, s => modalCycles n (modalUnmount (modalMount s))

/-- In every reachable state of the past-orders view the page number is
at least 1: it starts at 1 and the Previous button is a no-op exactly
when `page <= 1`. -/
theorem uiReachable_page_ge_one {s : UIState} (h : UIReachable s) : 1 ≤ s.page := by
  induction h with
  | init ds => exact le_refl 1
  | @step s' e hs ih =>
    cases e with
    | clickPrevious =>
      simp only [uiStep]
      split
      · exact ih
      · next hcond =>
        simp only [prevDisabled, decide_eq_true_eq] at hcond
        show (1 : Int) ≤ s'.page - 1
        omega
    | clickNext =>
      simp only [uiStep]
      split
      · exact ih
      · show (1 : Int) ≤ s'.page + 1
        omega
    | clickOrder id => exact ih
    | clickClose => exact ih
    | summariesLoaded ds => exact ih

/-- Once the boundary is in the errored state, every subsequent render
pass leaves it errored and outputs the fallback view. -/
theorem boundaryRun_errored (cs : List (Except RenderError PastOrdersView)) :
    boundaryRun ⟨true⟩ cs = (⟨true⟩, List.replicate cs.length BoundaryView.fallback) := by
  induction cs with
  | nil => rfl
  | cons c cs ih => simp [boundaryRun, boundaryRender, ih, List.replicate]

/-- Selecting an id that is already the focused order is a no-op on the
whole detail-query state: the second `setFocusedOrder` writes the same
value and the hook issues no fetch (the key is in flight or cached). -/
theorem selectOrder_idempotent (s : DQState) (id : OrderId) (t : Nat) :
    selectOrder (selectOrder s id t) id t = selectOrder s id t := by
  cases s with
  | mk focus cache inFlight calls =>
    by_cases hf : detailFetchOnRender ⟨some id, cache, inFlight, calls⟩ t = true
    · have h1 : selectOrder ⟨focus, cache, inFlight, calls⟩ id t
          = ⟨some id, cache, id :: inFlight, (id, t) :: calls⟩ := by
        simp only [selectOrder]
        rw [if_pos hf]
      rw [h1]
      have h2 : detailFetchOnRender ⟨some id, cache, id :: inFlight, (id, t) :: calls⟩ t
          = false := by
        simp [detailFetchOnRender]
      simp only [selectOrder]
      rw [if_neg (by simp [h2])]
    · have h1 : selectOrder ⟨focus, cache, inFlight, calls⟩ id t
          = ⟨some id, cache, inFlight, calls⟩ := by
        simp only [selectOrder]
        rw [if_neg hf]
      rw [h1]
      simp only [selectOrder]
      rw [if_neg hf]

/-- Any number of complete display/dismiss cycles starting from a
detached surface ends detached, with matching operation counts. -/
theorem modalCycles_from_detached (n a d : Nat) :
    modalCycles n ⟨false, a, d⟩ = ⟨false, a + n, d + n⟩ := by
  induction n generalizing a d with
  | zero => rfl
  | succ k ih =>
    show modalCycles k (modalUnmount (modalMount ⟨false, a, d⟩)) = _
    have hstep : modalUnmount (modalMount ⟨false, a, d⟩) = ⟨false, a + 1, d + 1⟩ := rfl
    rw [hstep, ih]
    simp only [SurfaceState.mk.injEq, true_and]
    exact ⟨by omega, by omega⟩

/-- C1: the claim says a failed dependent detail fetch (detail data
absent, or missing `orderItems`, at render time) is confined to the
Detail Overlay's slot, with the summaries table still rendered and a
presence check before indexing into `orderItems`.  The code has no such
presence check: evaluated at a concrete state with a focused order whose
detail query has settled without data (and likewise with data lacking
`orderItems`), the render of `PastOrdersRoute` throws a `TypeError`, and
the Failure Isolation Wrapper replaces the whole order-history subtree —
summaries table and pagination included — with its fallback view. -/
theorem detail_failure_escapes_overlay_slot :
    renderPastOrdersRoute 1 false
        (some [⟨OrderId.num 1, "2024-01-01", "10:00"⟩])
        (some (OrderId.num 1)) false none
      = .error .typeError ∧
    renderPastOrdersRoute 1 false
        (some [⟨OrderId.num 1, "2024-01-01", "10:00"⟩])
        (some (OrderId.num 1)) false (some ⟨none⟩)
      = .error .typeError ∧
    renderRoot ebInit
        (renderPastOrdersRoute 1 false
          (some [⟨OrderId.num 1, "2024-01-01", "10:00"⟩])
          (some (OrderId.num 1)) false none)
      = (⟨true⟩, ⟨true, .fallback, true⟩) := by
  exact ⟨rfl, rfl, rfl⟩

/-- C2: for every page value, when the summaries fetch has failed (the
query settled with no data, so `data.map` throws at render time), the
render of `PastOrdersRoute` produces a renderable error — it is not
silently swallowed — the Failure Isolation Wrapper intercepts it,
transitions to its errored state and renders the fallback view in place
of the order-history subtree, while the header and pizza-of-the-day
outside the wrapper remain rendered. -/
theorem summaries_failure_hits_boundary_header_stays (page : Int)
    (focus : Option OrderId) (ilpo : Bool) (pod : Option OrderDetailJS) :
    renderPastOrdersRoute page false none focus ilpo pod = .error .typeError ∧
    renderRoot ebInit (renderPastOrdersRoute page false none focus ilpo pod)
      = (⟨true⟩, ⟨true, .fallback, true⟩) := by
  exact ⟨rfl, rfl⟩

/-- C5: the Failure Isolation Wrapper is a two-state machine over
`{ok, errored}`: the initial state is ok (`hasError = false`); a child
render failure in the ok state transitions it to errored and yields the
fallback; a successful child render leaves it ok and passes the children
through; from the errored state every render — over any sequence of
subsequent render passes — stays errored and yields only the fixed
fallback, never the wrapped children. -/
theorem boundary_two_state_machine :
    ebInit = ⟨false⟩ ∧
    (∀ e : RenderError, boundaryRender ebInit (.error e)
        = (⟨true⟩, BoundaryView.fallback)) ∧
    (∀ v : PastOrdersView, boundaryRender ebInit (.ok v) = (ebInit, .ok v)) ∧
    (∀ child, boundaryRender ⟨true⟩ child = (⟨true⟩, BoundaryView.fallback)) ∧
    (∀ cs, boundaryRun ⟨true⟩ cs
        = (⟨true⟩, List.replicate cs.length BoundaryView.fallback)) := by
  exact ⟨rfl, fun e => rfl, fun v => rfl, fun child => rfl, boundaryRun_errored⟩

/-- C3: in every reachable state of the order-history view the Previous
button's disabled flag (`page <= 1`) holds if and only if `page = 1`
(pages never go below 1, since the button is inert at page 1), and the
Next button's disabled flag holds if and only if the last fetched
summaries sequence has length strictly below 10. -/
theorem pagination_disabled_iff {s : UIState} (h : UIReachable s) :
    (prevDisabled s = true ↔ s.page = 1) ∧
    (nextDisabled s = true ↔ s.summaries.length < 10) := by
  have hp := uiReachable_page_ge_one h
  constructor
  · simp only [prevDisabled, decide_eq_true_eq]
    omega
  · simp only [nextDisabled, decide_eq_true_eq]

/-- Witness for the pagination theorem at the initial state (page 1 with
an empty first summaries page). -/
theorem pagination_disabled_iff_witness :
    (prevDisabled (uiInit []) = true ↔ (uiInit []).page = 1) ∧
    (nextDisabled (uiInit []) = true ↔ (uiInit []).summaries.length < 10) :=
  pagination_disabled_iff (UIReachable.init [])

/-- C8: the two axes of view state are independent.  Previous and Next
clicks change only `page`: the focused order, the overlay's visibility,
and the summaries data are untouched; conversely selecting an order,
closing the modal, or a summaries load leaves `page` unchanged, and a
summaries load also leaves the focused order unchanged. -/
theorem page_and_focus_independent (s : UIState) (id : OrderId)
    (ds : List OrderSummary) :
    (uiStep s .clickPrevious).focusedOrder = s.focusedOrder ∧
    (uiStep s .clickNext).focusedOrder = s.focusedOrder ∧
    overlayVisible (uiStep s .clickPrevious) = overlayVisible s ∧
    overlayVisible (uiStep s .clickNext) = overlayVisible s ∧
    (uiStep s .clickPrevious).summaries = s.summaries ∧
    (uiStep s .clickNext).summaries = s.summaries ∧
    (uiStep s (.clickOrder id)).page = s.page ∧
    (uiStep s .clickClose).page = s.page ∧
    (uiStep s (.summariesLoaded ds)).page = s.page ∧
    (uiStep s (.summariesLoaded ds)).focusedOrder = s.focusedOrder := by
  refine ⟨?_, ?_, ?_, ?_, ?_, ?_, rfl, rfl, rfl, rfl⟩ <;>
    · simp only [uiStep, overlayVisible]
      split <;> rfl

/-- C10: clicking an order whose `order_id` is falsy (for instance the
number 0 or the empty string) does set `focusedOrder` to that id, but
the overlay never opens and no detail fetch is issued: the overlay
conditional `focusedOrder ? ...`, the modal slot, the `enabled:
!!focusedOrder` flag, and the render-time fetch decision all test
JavaScript truthiness rather than comparing against `undefined`. -/
theorem falsy_order_id_no_overlay_no_fetch (s : UIState) (id : OrderId)
    (hfalsy : truthy id = false) (ilpo : Bool) (pod : Option OrderDetailJS)
    (cache : List (OrderId × CacheEntry)) (inFl : List OrderId)
    (calls : List (OrderId × Nat)) (now : Nat) :
    (uiStep s (.clickOrder id)).focusedOrder = some id ∧
    overlayVisible (uiStep s (.clickOrder id)) = false ∧
    detailQueryEnabled (some id) = false ∧
    renderModalSlot (some id) ilpo pod = .ok none ∧
    detailFetchOnRender ⟨some id, cache, inFl, calls⟩ now = false := by
  refine ⟨rfl, ?_, ?_, ?_, ?_⟩
  · simp [uiStep, overlayVisible, truthyFocus, hfalsy]
  · simp [detailQueryEnabled, truthyFocus, hfalsy]
  · simp [renderModalSlot, hfalsy]
  · simp [detailFetchOnRender, detailQueryEnabled, truthyFocus, hfalsy]

/-- Witness for the falsy-id theorem at `order_id = 0` from the initial
view state with an empty cache. -/
theorem falsy_order_id_no_overlay_no_fetch_witness :
    (uiStep (uiInit []) (.clickOrder (OrderId.num 0))).focusedOrder
        = some (OrderId.num 0) ∧
    overlayVisible (uiStep (uiInit []) (.clickOrder (OrderId.num 0))) = false ∧
    detailQueryEnabled (some (OrderId.num 0)) = false ∧
    renderModalSlot (some (OrderId.num 0)) false none = .ok none ∧
    detailFetchOnRender ⟨some (OrderId.num 0), [], [], []⟩ 0 = false :=
  falsy_order_id_no_overlay_no_fetch (uiInit []) (OrderId.num 0) (by decide)
    false none [] [] [] 0

/-- C4: a late detail response is safely discarded.  If the detail fetch
that originated for key `x` resolves while the focused order is a
different `y` (or is none), the resolution writes only under its
originating cache key, so the detail the overlay renders for the current
focus is unchanged — and when focus is none, nothing is rendered at all:
the resolved `x` data is never rendered as the current detail. -/
theorem late_detail_resolution_discarded (s : DQState) (x : OrderId)
    (d : OrderDetailJS) (t : Nat)
    (h : s.focus = none ∨ ∃ y, s.focus = some y ∧ y ≠ x) :
    renderedDetail (resolveDetail s x d t) = renderedDetail s ∧
    (s.focus = none → renderedDetail (resolveDetail s x d t) = none) := by
  constructor
  · rcases h with hn | ⟨y, hy, hne⟩
    · simp [renderedDetail, resolveDetail, hn]
    · have hxy : x ≠ y := fun hh => hne hh.symm
      simp [renderedDetail, resolveDetail, cacheLookup, hy, hxy]
  · intro hn
    simp [renderedDetail, resolveDetail, hn]

/-- Witness for the late-resolution theorem: order 1's detail resolves
while order 2 is focused, and what the overlay renders is unchanged. -/
theorem late_detail_resolution_discarded_witness :
    renderedDetail
        (resolveDetail ⟨some (OrderId.num 2), [], [], []⟩ (OrderId.num 1)
          ⟨some []⟩ 5)
      = renderedDetail ⟨some (OrderId.num 2), [], [], []⟩ :=
  (late_detail_resolution_discarded ⟨some (OrderId.num 2), [], [], []⟩
    (OrderId.num 1) ⟨some []⟩ 5
    (Or.inr ⟨OrderId.num 2, rfl, by decide⟩)).1

/-- C6: the dependent detail query never executes while `FocusedOrder`
is none: the `enabled: !!focusedOrder` flag is false for `undefined`,
and in any state with no focused order — whatever the cache, in-flight
set, call log, or time — rendering the detail query hook issues no
fetch. -/
theorem no_detail_fetch_without_focus (cache : List (OrderId × CacheEntry))
    (inFl : List OrderId) (calls : List (OrderId × Nat)) (now : Nat) :
    detailQueryEnabled none = false ∧
    detailFetchOnRender ⟨none, cache, inFl, calls⟩ now = false :=
  ⟨rfl, rfl⟩

/-- C7: selecting order `x`, clearing focus, and re-selecting `x` while
the cached detail (fetched at `t1`) is still inside the 24-hour
freshness window at `t2` issues no second network call: the call log
after the re-selection equals the log before it, and over the whole
scenario exactly the one original call for `x` was made.  Moreover
`selectOrder` is idempotent: re-selecting the already-focused id leaves
the entire detail-query state (calls included) unchanged. -/
theorem reselect_within_freshness_no_second_call (x : OrderId)
    (d : OrderDetailJS) (t0 t1 t2 : Nat) (hx : truthy x = true)
    (hfresh : t2 - t1 < detailStaleTime) :
    (selectOrder (clearFocus (resolveDetail (selectOrder dqInit x t0) x d t1))
        x t2).calls
      = (clearFocus (resolveDetail (selectOrder dqInit x t0) x d t1)).calls ∧
    (selectOrder (clearFocus (resolveDetail (selectOrder dqInit x t0) x d t1))
        x t2).calls
      = [(x, t0)] ∧
    (∀ (s : DQState) (id : OrderId) (t : Nat),
      selectOrder (selectOrder s id t) id t = selectOrder s id t) := by
  have h1 : selectOrder dqInit x t0 = ⟨some x, [], [x], [(x, t0)]⟩ := by
    simp [selectOrder, dqInit, detailFetchOnRender, detailQueryEnabled,
      truthyFocus, isFresh, cacheLookup, hx]
  have h3 : clearFocus (resolveDetail (selectOrder dqInit x t0) x d t1)
      = ⟨none, [(x, ⟨t1, d⟩)], [], [(x, t0)]⟩ := by
    rw [h1]
    simp [resolveDetail, clearFocus, removeInFlight]
  have h4 : selectOrder ⟨none, [(x, ⟨t1, d⟩)], [], [(x, t0)]⟩ x t2
      = ⟨some x, [(x, ⟨t1, d⟩)], [], [(x, t0)]⟩ := by
    simp [selectOrder, detailFetchOnRender, detailQueryEnabled, truthyFocus,
      isFresh, cacheLookup, hfresh]
  refine ⟨?_, ?_, selectOrder_idempotent⟩
  · rw [h3, h4]
  · rw [h3, h4]

/-- Witness for the reselect-within-freshness theorem: order 1 selected
at time 0, resolved at time 1, re-selected at time 2 — one call total. -/
theorem reselect_within_freshness_no_second_call_witness :
    (selectOrder
        (clearFocus
          (resolveDetail (selectOrder dqInit (OrderId.num 1) 0) (OrderId.num 1)
            ⟨some []⟩ 1))
        (OrderId.num 1) 2).calls
      = [(OrderId.num 1, 0)] :=
  (reselect_within_freshness_no_second_call (OrderId.num 1) ⟨some []⟩ 0 1 2
    (by decide) (by decide)).2.1

/-- C9: over every sequence of complete display/dismiss cycles of the
Detail Overlay, attachment of the overlay's host element to the fixed
display surface is performed on display and released on dismissal: after
the cycles no attachment persists, the number of attach operations
equals the number of detach operations, and a single mount/unmount cycle
always ends detached. -/
theorem overlay_attach_detach_balanced (n : Nat) :
    (modalCycles n surfaceInit).attached = false ∧
    (modalCycles n surfaceInit).attachCount = n ∧
    (modalCycles n surfaceInit).detachCount = n ∧
    (∀ s : SurfaceState, (modalUnmount (modalMount s)).attached = false) := by
  have h := modalCycles_from_detached n 0 0
  rw [surfaceInit, h]
  refine ⟨rfl, ?_, ?_, fun s => rfl⟩
  · show 0 + n = n
    omega
  · show 0 + n = n
    omega
